import Mathlib

/-!
Verification development for the pipeline-orchestration subsystem of an
OctoPrint streaming plugin.  The Python sources
(octoprint_thespaghettidetective/utils.py and
octoprint_thespaghettidetective/webcam_stream.py) are shallowly embedded
below: pure functions become Lean functions, stateful classes become
explicit state records with state-passing operations, Python exceptions
become Except values, and the nondeterministic inputs (random jitter,
clock gaps, subprocess outcomes) become explicit parameters.
-/

namespace TSD

/-! ## ExpoBackoff (utils.py, lines 20-38)

The Python class holds a signed attempt counter (initialised to -3) and a
max-delay ceiling.  more(e) performs, in order:
  self.attempts += 1
  delay = 2 ** self.attempts          -- the counter value AFTER the increment
  if delay > self.max_seconds: delay = self.max_seconds
  delay *= 0.5 + random.random()
  time.sleep(delay)
The jitter random.random() is modelled as a parameter u with 0 <= u < 1,
and the slept duration is returned alongside the updated state.  Seconds
are modelled as rationals, the counter as an integer (2 ** attempts is
Python float exponentiation, exact for these powers of two). -/

structure ExpoBackoff where
  attempts : ℤ
  max_seconds : ℚ
deriving DecidableEq, Repr

def ExpoBackoff.init (max_seconds : ℚ) : ExpoBackoff :=
  { attempts := -3, max_seconds := max_seconds }

def ExpoBackoff.reset (b : ExpoBackoff) : ExpoBackoff :=
  { b with attempts := -3 }

def ExpoBackoff.more (b : ExpoBackoff) (u : ℚ) : ExpoBackoff × ℚ :=
  let attempts := b.attempts + 1
  let delay0 := (2 : ℚ) ^ attempts
  let delay1 := if delay0 > b.max_seconds then b.max_seconds else delay0
  let delay := delay1 * (1/2 + u)
  ({ b with attempts := attempts }, delay)

/-! ## ConnectionErrorTracker (utils.py, lines 41-73)

Per-category attempt counters and per-category error-timestamp lists,
both Python dicts read with a default (0 resp. []).  Categories are
strings; timestamps are modelled as naturals.  add_connection_error
appends the timestamp and then evaluates the notification policy against
the UPDATED error list; the Bool it returns records whether
send_plugin_message fired on that call. -/

structure ConnectionErrorTracker where
  attempts : String → ℕ
  errors : String → List ℕ

def ConnectionErrorTracker.init : ConnectionErrorTracker :=
  { attempts := fun _ => 0, errors := fun _ => [] }

def ConnectionErrorTracker.attempt (t : ConnectionErrorTracker) (c : String) :
    ConnectionErrorTracker :=
  { t with attempts := fun x => if x = c then t.attempts c + 1 else t.attempts x }

/-- utils.py lines 57-70.  Python compares len(errors) against
attempts * 0.5 and attempts * 0.25 in floating point; those products are
exact for every realistic count, so the comparison is embedded over ℚ. -/
def ConnectionErrorTracker.notify_client_if_needed_for_error
    (t : ConnectionErrorTracker) (c : String) : Bool :=
  let attempts := t.attempts c
  let errors := t.errors c
  if attempts < 8 then false
  else if attempts < 10 ∧ (errors.length : ℚ) < (attempts : ℚ) * (1/2) then false
  else if (errors.length : ℚ) < (attempts : ℚ) * (1/4) then false
  else true

def ConnectionErrorTracker.add_connection_error
    (t : ConnectionErrorTracker) (c : String) (now : ℕ) :
    ConnectionErrorTracker × Bool :=
  let t2 : ConnectionErrorTracker :=
    { t with errors := fun x => if x = c then t.errors c ++ [now] else t.errors x }
  (t2, t2.notify_client_if_needed_for_error c)

/-- One externally visible tracker operation. -/
inductive TrackerOp
  | attempt (c : String)
  | add_connection_error (c : String) (now : ℕ)
deriving DecidableEq, Repr

/-- Run a sequence of tracker operations (discarding the notification flags). -/
def runOps (t : ConnectionErrorTracker) : List TrackerOp → ConnectionErrorTracker
  | [] => t
  | .attempt c :: rest => runOps (t.attempt c) rest
  | .add_connection_error c now :: rest => runOps (t.add_connection_error c now).1 rest

/-- Number of attempt operations for category c in an operation list. -/
def countAttempts (c : String) : List TrackerOp → ℕ
  | [] => 0
  | .attempt x :: rest => (if x = c then 1 else 0) + countAttempts c rest
  | .add_connection_error _ _ :: rest => countAttempts c rest

/-- Number of add_connection_error operations for category c. -/
def countAdds (c : String) : List TrackerOp → ℕ
  | [] => 0
  | .attempt _ :: rest => countAdds c rest
  | .add_connection_error x _ :: rest => (if x = c then 1 else 0) + countAdds c rest

/-- A tracker that has seen a attempt calls and e add_connection_error
calls for the category "server", built by running the operations. -/
def demo_tracker (a e : ℕ) : ConnectionErrorTracker :=
  runOps ConnectionErrorTracker.init
    (List.replicate a (.attempt "server") ++ (List.range e).map (fun i => .add_connection_error "server" i))

/-! ## bitrate_for_dim (webcam_stream.py, lines 44-53) -/

def bitrate_for_dim (img_w img_h : ℕ) : ℕ :=
  let dim := img_w * img_h
  if dim ≤ 480 * 270 then 200000
  else if dim ≤ 960 * 540 then 1000000
  else if dim ≤ 1640 * 922 then 3000000
  else 6000000

/-- The same tier table as a function of the pixel area alone;
bitrate_for_dim factors through it definitionally. -/
def bitrate_of_area (dim : ℕ) : ℕ :=
  if dim ≤ 480 * 270 then 200000
  else if dim ≤ 960 * 540 then 1000000
  else if dim ≤ 1640 * 922 then 3000000
  else 6000000

/-! ## Python exceptions -/

/-- The Python exception classes that the embedded code can raise. -/
inductive PyErr
  | nameError         -- NameError: a local read before any assignment
  | typeError         -- TypeError: e.g. ord() applied to an empty read
  | structError       -- struct.error: unpack buffer too short
  | connectionError   -- requests/socket connection failure
  | osError           -- a failing OS-level call (process already gone, ...)
deriving DecidableEq, Repr

/-! ## WebcamStreamer.restore (webcam_stream.py, lines 55-67 and 307-345)

The streamer object holds optional handles to the janus gateway process,
the gst pipeline process, the ffmpeg encoder process, the picamera
resource and the embedded flask web server; each is modelled as a Bool
recording whether the component is currently held/running.  The state
also tracks the two pieces of system state restore touches: whether the
generic webcam service (webcamd) is running, and whether the
CAM_EXCLUSIVE_USE camera-lease marker file exists (utils.py line 16).
restore is embedded as an Except-valued function so that an exception
escaping a try/except block would be observable as an .error result;
every fallible call it makes sits inside its own try/except whose
except-clause is pass, modelled by pyTryPass. -/

structure WebcamStreamer where
  shutting_down : Bool
  janus_proc : Bool
  gst_proc : Bool
  ffmpeg_proc : Bool
  pi_camera : Bool
  web_server_running : Bool
  webcamd_running : Bool
  lease_present : Bool
deriving DecidableEq, Repr

/-- Which of the best-effort calls inside restore raise.  terminate on a
process handle and stop_recording/close on the camera can raise when the
process or camera is already gone; restore swallows each failure. -/
structure RestoreFaults where
  janus_terminate_raises : Bool
  gst_terminate_raises : Bool
  ffmpeg_terminate_raises : Bool
  stop_recording_raises : Bool
  camera_close_raises : Bool
deriving DecidableEq, Repr

/-- try: ... except: pass — a failing action leaves the state unchanged. -/
def pyTryPass (s : WebcamStreamer) (act : Except PyErr WebcamStreamer) :
    Except PyErr WebcamStreamer :=
  match act with
  | .ok s2 => .ok s2
  | .error _ => .ok s

/-- requests.post to the /shutdown route of the embedded web server:
stops the listener when one is running, raises a connection error
otherwise (connection refused). -/
def post_shutdown (s : WebcamStreamer) : Except PyErr WebcamStreamer :=
  if s.web_server_running then .ok { s with web_server_running := false }
  else .error .connectionError

/-- A best-effort call whose only modelled effect is that it may raise. -/
def failable_call (raises : Bool) (s : WebcamStreamer) : Except PyErr WebcamStreamer :=
  if raises then .error .osError else .ok s

/-- utils.py lines 137-141: os.remove of the lease marker, wrapped in
try/except (removing an absent file raises, which is swallowed); in
either case the marker is absent afterwards. -/
def not_using_pi_camera (s : WebcamStreamer) : WebcamStreamer :=
  { s with lease_present := false }

/-- utils.py lines 143-144: touch the lease marker file. -/
def using_pi_camera (s : WebcamStreamer) : WebcamStreamer :=
  { s with lease_present := true }

/-- webcam_stream.py lines 307-345. -/
def WebcamStreamer.restoreE (s0 : WebcamStreamer) (f : RestoreFaults) :
    Except PyErr WebcamStreamer :=
  let s := { s0 with shutting_down := true }
  match pyTryPass s (post_shutdown s) with
  | .error e => .error e
  | .ok s =>
  match (if s.janus_proc then pyTryPass s (failable_call f.janus_terminate_raises s)
         else .ok s) with
  | .error e => .error e
  | .ok s =>
  match (if s.gst_proc then pyTryPass s (failable_call f.gst_terminate_raises s)
         else .ok s) with
  | .error e => .error e
  | .ok s =>
  match (if s.ffmpeg_proc then pyTryPass s (failable_call f.ffmpeg_terminate_raises s)
         else .ok s) with
  | .error e => .error e
  | .ok s =>
  match (if s.pi_camera then
           (match pyTryPass s (failable_call f.stop_recording_raises s) with
            | .error e => .error e
            | .ok s => pyTryPass s (failable_call f.camera_close_raises s) :
              Except PyErr WebcamStreamer)
         else .ok s) with
  | .error e => .error e
  | .ok s =>
    -- sarge.run of the webcamd start command, then the per-handle resets
    .ok { s with webcamd_running := true,
                 janus_proc := false, gst_proc := false,
                 ffmpeg_proc := false, pi_camera := false }

/-- The state every restore call ends in: only the lease marker survives. -/
def restored_state (lease : Bool) : WebcamStreamer :=
  { shutting_down := true, janus_proc := false, gst_proc := false,
    ffmpeg_proc := false, pi_camera := false, web_server_running := false,
    webcamd_running := true, lease_present := lease }

/-- A streamer that ran the dedicated-camera path: lease marker written
(using_pi_camera) and the camera held. -/
def started_picam_streamer : WebcamStreamer :=
  { shutting_down := false, janus_proc := true, gst_proc := false,
    ffmpeg_proc := true, pi_camera := true, web_server_running := true,
    webcamd_running := false, lease_present := true }

def no_faults : RestoreFaults :=
  { janus_terminate_raises := false, gst_terminate_raises := false,
    ffmpeg_terminate_raises := false, stop_recording_raises := false,
    camera_close_raises := false }

/-! ## get_image_info (utils.py, lines 147-206)

The input is a byte string, modelled as a list of byte values.  The
iso-8859-1 decode at the top is the identity on byte values, so the
sliced string comparisons below are comparisons of byte lists.  The
result is (content_type, width, height); the JPEG branch walks the byte
stream with BytesIO reads and can leak a NameError (int(w) with w never
assigned, when the marker-scan while loop exits without having hit an
SOF marker) or a TypeError (ord of the empty string returned by a read
at end of input); only struct.error and ValueError are caught by the
except clauses at lines 201-204. -/

abbrev Bytes := List ℕ

def gif_magic_87 : Bytes := [71, 73, 70, 56, 55, 97]      -- the ASCII bytes GIF87a
def gif_magic_89 : Bytes := [71, 73, 70, 56, 57, 97]      -- the ASCII bytes GIF89a
def png_magic : Bytes := [137, 80, 78, 71, 13, 10, 26, 10]
def ihdr_tag : Bytes := [73, 72, 68, 82]                  -- the ASCII bytes IHDR

/-- struct.unpack of one little-endian unsigned 16-bit value. -/
def le16 (a b : ℕ) : ℕ := a + 256 * b

/-- struct.unpack of one big-endian unsigned 16-bit value. -/
def be16 (a b : ℕ) : ℕ := 256 * a + b

/-- struct.unpack of one big-endian unsigned 32-bit value. -/
def be32 (a b c d : ℕ) : ℕ := ((a * 256 + b) * 256 + c) * 256 + d

/-- Outcome of the JPEG marker-scan while loop (utils.py lines 186-204):
either an SOF marker supplied width and height, or an exception was
raised and caught (struct.error / ValueError, leaving -1 x -1), or an
exception escaped the function. -/
inductive JpegScan
  | sof (w h : ℕ)
  | caught
  | raised (e : PyErr)
deriving DecidableEq, Repr

/-- Inner loop at line 190: while ord(b) != 0xFF: b = jpeg.read(1).
The current byte is b; reading past the end makes the next ord raise a
TypeError.  Returns the stream right after the first 0xFF byte. -/
def skip_to_ff (b : ℕ) (s : Bytes) : Except PyErr Bytes :=
  if b = 0xFF then .ok s
  else match s with
    | [] => .error .typeError
    | c :: t => skip_to_ff c t

/-- Inner loop at line 191: while ord(b) == 0xFF: b = jpeg.read(1).
Returns the first byte after the run of 0xFF bytes and the remaining
stream; raises a TypeError at end of input. -/
def skip_ffs (b : ℕ) (s : Bytes) : Except PyErr (ℕ × Bytes) :=
  if b = 0xFF then
    match s with
    | [] => .error .typeError
    | c :: t => skip_ffs c t
  else .ok (b, s)

/-- Outer while loop at line 189, one recursive call per iteration.
b is the current byte (none models the empty string read at end of
input).  Exiting the while loop other than through the SOF break leaves
w and h unassigned, so the subsequent int(w) raises a NameError.  fuel
strictly exceeds the number of iterations possible on the given stream
(every iteration consumes at least one byte). -/
def jpeg_scan_loop : ℕ → Option ℕ → Bytes → JpegScan
  | 0, _, _ => .raised .nameError
  | _ + 1, none, _ => .raised .nameError
  | fuel + 1, some b0, s =>
    if b0 = 0xDA then .raised .nameError
    else
      match skip_to_ff b0 s with
      | .error e => .raised e
      | .ok s1 =>
        match s1 with
        | [] => .raised .typeError
        | c :: t =>
          match skip_ffs c t with
          | .error e => .raised e
          | .ok (m, s2) =>
            if 0xC0 ≤ m ∧ m ≤ 0xC3 then
              -- line 193-194: jpeg.read(3), then h, w = unpack of 4 bytes
              let s3 := s2.drop 3
              if 4 ≤ s3.length then
                .sof (be16 (s3.getD 2 0) (s3.getD 3 0)) (be16 (s3.getD 0 0) (s3.getD 1 0))
              else .caught                     -- struct.error, caught at line 201
            else
              -- line 197: jpeg.read(unpack of 2 bytes minus 2)
              if 2 ≤ s2.length then
                let seg := be16 (s2.getD 0 0) (s2.getD 1 0)
                -- a negative read size makes BytesIO read to the end
                let s3 := if 2 ≤ seg then s2.drop (2 + (seg - 2)) else []
                match s3 with
                | [] => jpeg_scan_loop fuel none []          -- b = jpeg.read(1) is empty
                | c2 :: t2 => jpeg_scan_loop fuel (some c2) t2
              else .caught                     -- struct.error, caught at line 201

/-- Lines 185-204 after the two-byte SOI has been consumed. -/
def jpeg_scan (s : Bytes) : JpegScan :=
  match s with
  | [] => .raised .nameError     -- b = jpeg.read(1) empty: while skipped, int(w) raises
  | b :: t => jpeg_scan_loop (s.length + 2) (some b) t

def get_image_info (data : Bytes) : Except PyErr (String × ℤ × ℤ) :=
  let size := data.length
  if 10 ≤ size ∧ (data.take 6 = gif_magic_87 ∨ data.take 6 = gif_magic_89) then
    .ok ("image/gif",
         (le16 (data.getD 6 0) (data.getD 7 0) : ℤ),
         (le16 (data.getD 8 0) (data.getD 9 0) : ℤ))
  else if 24 ≤ size ∧ data.take 8 = png_magic ∧ ((data.drop 12).take 4 = ihdr_tag) then
    .ok ("image/png",
         (be32 (data.getD 16 0) (data.getD 17 0) (data.getD 18 0) (data.getD 19 0) : ℤ),
         (be32 (data.getD 20 0) (data.getD 21 0) (data.getD 22 0) (data.getD 23 0) : ℤ))
  else if 16 ≤ size ∧ data.take 8 = png_magic then
    .ok ("image/png",
         (be32 (data.getD 8 0) (data.getD 9 0) (data.getD 10 0) (data.getD 11 0) : ℤ),
         (be32 (data.getD 12 0) (data.getD 13 0) (data.getD 14 0) (data.getD 15 0) : ℤ))
  else if 2 ≤ size ∧ data.take 2 = [0xFF, 0xD8] then
    match jpeg_scan (data.drop 2) with
    | .sof w h => .ok ("image/jpeg", (w : ℤ), (h : ℤ))
    | .caught => .ok ("image/jpeg", -1, -1)
    | .raised e => .error e
  else .ok ("", -1, -1)

/-! ## WebcamStreamer.video_pipeline (webcam_stream.py, lines 88-143)

The entry point is embedded as a trace of the externally visible
component starts it performs, driven by an environment record that fixes
the outcomes of the nondeterministic steps: the JANUS_SERVER environment
variable (os.getenv, None when unset), the pi_version() probe (utils.py
lines 98-107, None off Raspberry Pi hardware), the configured
compatibility mode, the outcome of camera initialisation and of the gst
pipeline start.  Log statements have no action; the internal lease
writes of camera initialisation are not part of the trace. -/

inductive PipelineAction
  | start_janus_ws_tunnel (server : String)   -- open the signaling tunnel
  | ensure_janus_config
  | run_janus                                 -- spawn the local gateway process
  | wait_for_janus
  | stop_webcamd                              -- sudo service webcamd stop
  | start_webcamd                             -- sudo service webcamd start
  | init_camera
  | start_gst
  | start_usb_webcam_server
  | start_gst_memory_guard
  | start_ffmpeg (via_wrapper : Bool)
  | start_pi_cam_webserver
  | start_recording
  | wait_for_webcamd
  | not_using_pi_camera_act
  | notify_warning                            -- send_plugin_message new_warning
  | restore_act
deriving DecidableEq, Repr

/-- How __init_camera__ (lines 69-86) resolves: the picamera was
acquired; or PiCameraError was raised but /dev/video0 exists, so the USB
path proceeds with pi_camera = None; or the retries were exhausted and
the exception propagates. -/
inductive CameraOutcome
  | picam
  | usb
  | fail
deriving DecidableEq, Repr

structure PipelineEnv where
  janus_server_env : Option String
  pi_ver : Option String
  compatible_mode : String
  camera_outcome : CameraOutcome
  gst_ok : Bool
deriving DecidableEq, Repr

/-- Python truthiness of os.getenv: None and the empty string are falsy. -/
def janus_env_truthy (env : PipelineEnv) : Bool :=
  match env.janus_server_env with
  | none => false
  | some s => !s.isEmpty

/-- Module constant at line 35: os.getenv with default 127.0.0.1. -/
def janus_server (env : PipelineEnv) : String :=
  match env.janus_server_env with
  | none => "127.0.0.1"
  | some s => s

/-- start_janus (lines 149-187): with the environment override set, the
local gateway is not started; either way the tunnel is opened. -/
def start_janus_actions (env : PipelineEnv) : List PipelineAction :=
  (if janus_env_truthy env then []
   else [.ensure_janus_config, .run_janus, .wait_for_janus]) ++
  [.start_janus_ws_tunnel (janus_server env)]

/-- ffmpeg_from_mjpeg (lines 212-227). -/
def ffmpeg_from_mjpeg_actions : List PipelineAction :=
  [.start_webcamd, .wait_for_webcamd, .start_ffmpeg true]

/-- The try block at lines 97-134; the Bool records whether it raised. -/
def video_pipeline_try_body (env : PipelineEnv) : List PipelineAction × Bool :=
  if env.compatible_mode = "always" then
    (start_janus_actions env ++ ffmpeg_from_mjpeg_actions, false)
  else
    let pre : List PipelineAction := [.stop_webcamd, .init_camera]
    match env.camera_outcome with
    | .fail => (pre, true)
    | .usb =>
        if env.gst_ok then
          (pre ++ start_janus_actions env ++
            [.start_gst, .start_usb_webcam_server, .start_gst_memory_guard], false)
        else if env.compatible_mode = "never" then
          (pre ++ start_janus_actions env ++ [.start_gst], true)
        else
          (pre ++ start_janus_actions env ++ [.start_gst] ++ ffmpeg_from_mjpeg_actions,
           false)
    | .picam =>
        (pre ++ start_janus_actions env ++
          [.start_ffmpeg false, .start_pi_cam_webserver, .start_recording], false)

/-- Lines 88-143: the two early returns, then the try body with its
except clause (lines 135-143). -/
def video_pipeline (env : PipelineEnv) : List PipelineAction :=
  if janus_env_truthy env then [.start_janus_ws_tunnel (janus_server env)]
  else if env.pi_ver.isNone then []
  else
    let body := video_pipeline_try_body env
    body.1 ++ (if body.2 then [.not_using_pi_camera_act, .notify_warning, .restore_act]
               else [])

/-! ## PiCamWebServer.get_snapshot (webcam_stream.py, lines 451-462)

The handler repeatedly pulls a frame from the depth-1 capture queue and
checks, under the mutex, the gap between the current time and the moment
the producer last captured a frame.  The sequence of observed gaps is an
input (gaps i is the gap seen at pull number i, in seconds); the result
is the index of the pull whose frame the handler returns.  The while
loop has no bound of its own, so the recursion carries fuel: a none
result means the loop was still running after fuel pulls. -/

def get_snapshot_loop (gaps : ℕ → ℚ) : ℕ → ℤ → ℕ → Option ℕ
  | 0, _, _ => none
  | fuel + 1, possible_stale_pics, i =>
    if gaps i < 1/10 then
      let p := possible_stale_pics - 1
      if p ≤ 0 then some i
      else get_snapshot_loop gaps fuel p (i + 1)
    else get_snapshot_loop gaps fuel possible_stale_pics (i + 1)

def get_snapshot (gaps : ℕ → ℚ) (fuel : ℕ) : Option ℕ :=
  get_snapshot_loop gaps fuel 3 0

/-! ## Helper lemmas -/

lemma half_cast_iff (l a : ℕ) : ((l:ℚ) < (a:ℚ) * (1/2)) ↔ 2 * l < a := by
  rw [mul_one_div, lt_div_iff₀ (by norm_num : (0:ℚ) < 2), mul_comm]
  norm_cast

lemma quarter_cast_iff (l a : ℕ) : ((l:ℚ) < (a:ℚ) * (1/4)) ↔ 4 * l < a := by
  rw [mul_one_div, lt_div_iff₀ (by norm_num : (0:ℚ) < 4), mul_comm]
  norm_cast

lemma half_cast_le (l a : ℕ) : ((a:ℚ) * (1/2) ≤ (l:ℚ)) ↔ a ≤ 2 * l := by
  rw [← not_lt, half_cast_iff, not_lt]

lemma quarter_cast_le (l a : ℕ) : ((a:ℚ) * (1/4) ≤ (l:ℚ)) ↔ a ≤ 4 * l := by
  rw [← not_lt, quarter_cast_iff, not_lt]

/-- The notification policy, restated over naturals (the float products
attempts * 0.5 and attempts * 0.25 are exact). -/
lemma notify_eq_nat (t : ConnectionErrorTracker) (c : String) :
    t.notify_client_if_needed_for_error c =
      (decide (8 ≤ t.attempts c) &&
        (decide (10 ≤ t.attempts c) || decide (t.attempts c ≤ 2 * (t.errors c).length)) &&
        decide (t.attempts c ≤ 4 * (t.errors c).length)) := by
  unfold ConnectionErrorTracker.notify_client_if_needed_for_error
  by_cases h1 : t.attempts c < 8
  · simp only [if_pos h1]
    have : ¬ (8 ≤ t.attempts c) := by omega
    simp [this]
  · rw [if_neg h1]
    by_cases h2 : t.attempts c < 10 ∧ ((t.errors c).length : ℚ) < (t.attempts c : ℚ) * (1/2)
    · rw [if_pos h2]
      obtain ⟨h2a, h2b⟩ := h2
      rw [half_cast_iff] at h2b
      have ha : ¬ (10 ≤ t.attempts c) := by omega
      have hb : ¬ (t.attempts c ≤ 2 * (t.errors c).length) := by omega
      simp [ha, hb]
    · rw [if_neg h2]
      rw [half_cast_iff] at h2
      by_cases h3 : ((t.errors c).length : ℚ) < (t.attempts c : ℚ) * (1/4)
      · rw [if_pos h3]
        rw [quarter_cast_iff] at h3
        have : ¬ (t.attempts c ≤ 4 * (t.errors c).length) := by omega
        simp [this]
      · rw [if_neg h3]
        rw [quarter_cast_iff] at h3
        push_neg at h2
        have h8 : 8 ≤ t.attempts c := by omega
        have h4 : t.attempts c ≤ 4 * (t.errors c).length := by omega
        rcases Nat.lt_or_ge (t.attempts c) 10 with h10 | h10
        · have := h2 h10
          simp [h8, h4]
          omega
        · simp [h8, h4, h10]

/-- The slept duration stays below 3/2 whenever the post-increment power
of two is at most one (the grace-period exponents). -/
lemma grace_step_delay_lt (b : ExpoBackoff) (u : ℚ) (h0 : 0 ≤ u) (h1 : u < 1)
    (hp : (2:ℚ) ^ (b.attempts + 1) ≤ 1) : (b.more u).2 < 3/2 := by
  show (if (2:ℚ) ^ (b.attempts + 1) > b.max_seconds then b.max_seconds
      else (2:ℚ) ^ (b.attempts + 1)) * (1/2 + u) < 3/2
  set cap := if (2:ℚ) ^ (b.attempts + 1) > b.max_seconds then b.max_seconds
      else (2:ℚ) ^ (b.attempts + 1) with hcap
  have hcap1 : cap ≤ 1 := by
    rw [hcap]
    split_ifs with h
    · linarith
    · exact hp
  rcases le_or_lt cap 0 with hc | hc
  · have : cap * (1/2 + u) ≤ 0 := mul_nonpos_of_nonpos_of_nonneg hc (by linarith)
    linarith
  · calc cap * (1/2 + u) ≤ 1 * (1/2 + u) := mul_le_mul_of_nonneg_right hcap1 (by linarith)
      _ < 3/2 := by linarith

/-- restore always succeeds and always ends in the same state, which
keeps the lease marker exactly as it was. -/
lemma restoreE_ok (s : WebcamStreamer) (f : RestoreFaults) :
    s.restoreE f = .ok (restored_state s.lease_present) := by
  rcases s with ⟨sd, jp, gp, fp, pc, ws, wd, lp⟩
  rcases f with ⟨f1, f2, f3, f4, f5⟩
  cases jp <;> cases gp <;> cases fp <;> cases pc <;> cases ws <;>
    cases f1 <;> cases f2 <;> cases f3 <;> cases f4 <;> cases f5 <;> rfl

lemma runOps_attempts (c : String) :
    ∀ (ops : List TrackerOp) (t : ConnectionErrorTracker),
      (runOps t ops).attempts c = t.attempts c + countAttempts c ops := by
  intro ops
  induction ops with
  | nil => intro t; simp [runOps, countAttempts]
  | cons op rest ih =>
    intro t
    cases op with
    | attempt d =>
      rw [runOps, ih, countAttempts]
      by_cases h : d = c
      · subst h
        simp [ConnectionErrorTracker.attempt]
        omega
      · have h2 : ¬ (c = d) := fun hh => h hh.symm
        simp [ConnectionErrorTracker.attempt, h, h2]
    | add_connection_error d now =>
      rw [runOps, ih, countAttempts]
      rfl

lemma runOps_errors (c : String) :
    ∀ (ops : List TrackerOp) (t : ConnectionErrorTracker),
      ((runOps t ops).errors c).length = (t.errors c).length + countAdds c ops := by
  intro ops
  induction ops with
  | nil => intro t; simp [runOps, countAdds]
  | cons op rest ih =>
    intro t
    cases op with
    | attempt d =>
      rw [runOps, ih, countAdds]
      rfl
    | add_connection_error d now =>
      rw [runOps, ih, countAdds]
      by_cases h : d = c
      · subst h
        simp [ConnectionErrorTracker.add_connection_error]
        omega
      · have h2 : ¬ (c = d) := fun hh => h hh.symm
        simp [ConnectionErrorTracker.add_connection_error, h, h2]

lemma snapshot_loop_fresh (gaps : ℕ → ℚ) :
    ∀ (fuel : ℕ) (c : ℤ) (n i : ℕ),
      get_snapshot_loop gaps fuel c n = some i → gaps i < 1/10 := by
  intro fuel
  induction fuel with
  | zero => intro c n i h; simp [get_snapshot_loop] at h
  | succ fuel ih =>
    intro c n i h
    rw [get_snapshot_loop] at h
    by_cases hg : gaps n < 1/10
    · rw [if_pos hg] at h
      by_cases hc : c - 1 ≤ 0
      · rw [if_pos hc] at h
        cases h
        exact hg
      · rw [if_neg hc] at h
        exact ih _ _ _ h
    · rw [if_neg hg] at h
      exact ih _ _ _ h

lemma snapshot_loop_stale (gaps : ℕ → ℚ) (h : ∀ j, ¬ (gaps j < 1/10)) :
    ∀ (fuel : ℕ) (c : ℤ) (n : ℕ), get_snapshot_loop gaps fuel c n = none := by
  intro fuel
  induction fuel with
  | zero => intro c n; rfl
  | succ fuel ih =>
    intro c n
    rw [get_snapshot_loop, if_neg (h n)]
    exact ih _ _

/-! ## Claim theorems -/

/-- Claim C1: for every category, the notification to the host message
bus fires on an add_connection_error call exactly when the attempt count
is at least 8, and (the attempt count is at least 10 or the error count
reaches half the attempt count), and the error count reaches a quarter
of the attempt count — the error count being the one in force during the
policy evaluation, i.e. including the error just recorded.  In the
concrete scenarios: 7 attempts with a 7th error fires nothing; 8
attempts with a 2nd error fires nothing; 10 attempts with a 3rd (and
again with a 4th) error fires. -/
theorem c1_notification_policy :
    (∀ (t : ConnectionErrorTracker) (c : String) (now : ℕ),
      ((t.add_connection_error c now).2 = true ↔
        (8 ≤ t.attempts c ∧
         (10 ≤ t.attempts c ∨
            (t.attempts c : ℚ) * (1/2) ≤ (((t.errors c).length + 1 : ℕ) : ℚ)) ∧
         (t.attempts c : ℚ) * (1/4) ≤ (((t.errors c).length + 1 : ℕ) : ℚ)))) ∧
    ((demo_tracker 7 6).add_connection_error "server" 6).2 = false ∧
    ((demo_tracker 8 1).add_connection_error "server" 1).2 = false ∧
    ((demo_tracker 10 2).add_connection_error "server" 2).2 = true ∧
    ((demo_tracker 10 3).add_connection_error "server" 3).2 = true := by
  refine ⟨?_, ?_, ?_, ?_, ?_⟩
  · intro t c now
    rw [ConnectionErrorTracker.add_connection_error, notify_eq_nat]
    simp only [eq_self_iff_true, if_true, List.length_append, List.length_singleton]
    rw [half_cast_le, quarter_cast_le]
    simp only [Bool.and_eq_true, Bool.or_eq_true, decide_eq_true_eq]
    constructor
    · rintro ⟨⟨h8, h10⟩, h4⟩
      exact ⟨h8, by tauto, h4⟩
    · rintro ⟨h8, h10, h4⟩
      exact ⟨⟨h8, by tauto⟩, h4⟩
  all_goals
    rw [ConnectionErrorTracker.add_connection_error, notify_eq_nat]
    decide

/-- Claim C2, counterexample: after the dedicated-camera path has
started (which writes the camera lease marker), two consecutive restore
calls raise nothing, but the lease marker is still present: restore
never touches CAM_EXCLUSIVE_USE. -/
theorem c2_restore_lease_counterexample :
    started_picam_streamer.restoreE no_faults = .ok (restored_state true) ∧
    (restored_state true).restoreE no_faults = .ok (restored_state true) ∧
    (restored_state true).lease_present = true :=
  ⟨rfl, rfl, rfl⟩

/-- Claim C2, amended: calling restore twice in a row raises no error
regardless of which subset of components was started and of which
best-effort teardown calls fail, and the second call is a no-op (restore
is idempotent); however restore leaves the camera-lease marker exactly
as it was.  The lease is removed by the separate not_using_pi_camera
call, which the failure path of video_pipeline performs before calling
restore — after that combination no lease is present. -/
theorem c2_restore_idempotent (s : WebcamStreamer) (f1 f2 : RestoreFaults) :
    s.restoreE f1 = .ok (restored_state s.lease_present) ∧
    (restored_state s.lease_present).restoreE f2 = .ok (restored_state s.lease_present) ∧
    (restored_state s.lease_present).lease_present = s.lease_present ∧
    (not_using_pi_camera s).restoreE f1 = .ok (restored_state false) :=
  ⟨restoreE_ok s f1, restoreE_ok _ f2, rfl, restoreE_ok _ f1⟩

/-- Claim C3, counterexample: with the attempt counter at 0 and ceiling
120, more with zero jitter sleeps 2 seconds times (1/2 + 0) = 1 second,
not the min(2 ** 0, 120) * (1/2 + 0) = 1/2 seconds the claim predicts
from the counter value current at the start of the call: the counter is
incremented before the delay is computed, not after the sleep. -/
theorem c3_delay_formula_counterexample :
    ((ExpoBackoff.mk 0 120).more 0).2 ≠
      min ((2:ℚ) ^ (ExpoBackoff.mk 0 120).attempts) 120 * (1/2 + 0) := by
  norm_num [ExpoBackoff.more]

/-- Claim C3, amended: more first increments the attempt counter, then
sleeps min(2 ** (attempt + 1), maxDelay) * (1/2 + u) seconds where
attempt is the counter value at the start of the call and u the uniform
jitter draw; for a nonnegative ceiling the delay never exceeds
maxDelay * 3/2. -/
theorem c3_backoff_delay (b : ExpoBackoff) (u : ℚ) (h0 : 0 ≤ u) (h1 : u < 1)
    (hm : 0 ≤ b.max_seconds) :
    (b.more u).1.attempts = b.attempts + 1 ∧
    (b.more u).2 = min ((2:ℚ) ^ (b.attempts + 1)) b.max_seconds * (1/2 + u) ∧
    (b.more u).2 ≤ b.max_seconds * (3/2) := by
  refine ⟨rfl, ?_, ?_⟩
  · show (if (2:ℚ) ^ (b.attempts + 1) > b.max_seconds then b.max_seconds
        else (2:ℚ) ^ (b.attempts + 1)) * (1/2 + u) = _
    split_ifs with h
    · rw [min_eq_right (le_of_lt h)]
    · rw [min_eq_left (not_lt.mp h)]
  · show (if (2:ℚ) ^ (b.attempts + 1) > b.max_seconds then b.max_seconds
        else (2:ℚ) ^ (b.attempts + 1)) * (1/2 + u) ≤ b.max_seconds * (3/2)
    split_ifs with h
    · exact mul_le_mul_of_nonneg_left (by linarith) hm
    · calc (2:ℚ) ^ (b.attempts + 1) * (1/2 + u)
          ≤ b.max_seconds * (1/2 + u) :=
            mul_le_mul_of_nonneg_right (not_lt.mp h) (by linarith)
        _ ≤ b.max_seconds * (3/2) := mul_le_mul_of_nonneg_left (by linarith) hm

/-- Claim C3, witness at counter 0, ceiling 120, zero jitter. -/
theorem c3_backoff_delay_witness :
    ((ExpoBackoff.mk 0 120).more 0).1.attempts = 0 + 1 ∧
    ((ExpoBackoff.mk 0 120).more 0).2 ≤ 120 * (3/2) := by
  have h := c3_backoff_delay (ExpoBackoff.mk 0 120) 0 (by norm_num) (by norm_num)
    (by norm_num)
  exact ⟨h.1, h.2.2⟩

/-- Claim C4: reset puts the attempt counter back at -3, and the next
three calls to more enforce delays below the small bound 3/2 seconds
(capped powers 1/4, 1/2 and 1 times a jitter factor below 3/2), before
exponential growth begins. -/
theorem c4_reset_grace_period (b : ExpoBackoff) (u1 u2 u3 : ℚ)
    (h10 : 0 ≤ u1) (h11 : u1 < 1) (h20 : 0 ≤ u2) (h21 : u2 < 1)
    (h30 : 0 ≤ u3) (h31 : u3 < 1) :
    b.reset.attempts = -3 ∧
    (b.reset.more u1).2 < 3/2 ∧
    ((b.reset.more u1).1.more u2).2 < 3/2 ∧
    (((b.reset.more u1).1.more u2).1.more u3).2 < 3/2 := by
  have e1 : (b.reset.more u1).1.attempts = -2 := by
    simp [ExpoBackoff.more, ExpoBackoff.reset]
  have e2 : ((b.reset.more u1).1.more u2).1.attempts = -1 := by
    simp [ExpoBackoff.more, ExpoBackoff.reset]
  refine ⟨rfl, ?_, ?_, ?_⟩
  · apply grace_step_delay_lt _ _ h10 h11
    show (2:ℚ) ^ (b.reset.attempts + 1) ≤ 1
    norm_num [ExpoBackoff.reset]
  · apply grace_step_delay_lt _ _ h20 h21
    rw [e1]
    norm_num
  · apply grace_step_delay_lt _ _ h30 h31
    rw [e2]
    norm_num

/-- Claim C4, witness: ceiling 120, zero jitter on all three calls. -/
theorem c4_reset_grace_period_witness :
    (ExpoBackoff.init 120).reset.attempts = -3 ∧
    ((ExpoBackoff.init 120).reset.more 0).2 < 3/2 ∧
    (((ExpoBackoff.init 120).reset.more 0).1.more 0).2 < 3/2 ∧
    ((((ExpoBackoff.init 120).reset.more 0).1.more 0).1.more 0).2 < 3/2 :=
  c4_reset_grace_period (ExpoBackoff.init 120) 0 0 0 (by norm_num) (by norm_num)
    (by norm_num) (by norm_num) (by norm_num) (by norm_num)

/-- Claim C5, counterexample: a single add_connection_error on a fresh
tracker, with no preceding attempt call, leaves the category with 0
attempts and 1 recorded error, violating the claimed invariant — the
tracker itself does not force attempts to dominate errors over arbitrary
interleavings. -/
theorem c5_invariant_counterexample :
    (runOps ConnectionErrorTracker.init [TrackerOp.add_connection_error "ws" 0]).attempts "ws" <
      ((runOps ConnectionErrorTracker.init [TrackerOp.add_connection_error "ws" 0]).errors "ws").length := by
  decide

/-- Claim C5, amended: for any interleaving of attempt and
add_connection_error operations from a fresh tracker in which, per
category, the add_connection_error calls do not outnumber the attempt
calls, the attempt count dominates the recorded error count. -/
theorem c5_attempts_ge_errors (ops : List TrackerOp) (c : String)
    (h : countAdds c ops ≤ countAttempts c ops) :
    ((runOps ConnectionErrorTracker.init ops).errors c).length ≤
      (runOps ConnectionErrorTracker.init ops).attempts c := by
  rw [runOps_attempts, runOps_errors]
  simp [ConnectionErrorTracker.init]
  exact h

/-- Claim C5, witness: one attempt followed by one reported error. -/
theorem c5_attempts_ge_errors_witness :
    ((runOps ConnectionErrorTracker.init
        [TrackerOp.attempt "ws", TrackerOp.add_connection_error "ws" 0]).errors "ws").length ≤
      (runOps ConnectionErrorTracker.init
        [TrackerOp.attempt "ws", TrackerOp.add_connection_error "ws" 0]).attempts "ws" :=
  c5_attempts_ge_errors [TrackerOp.attempt "ws", TrackerOp.add_connection_error "ws" 0]
    "ws" (by decide)

/-- Claim C6: bitrate selection factors through the pixel area with four
tiers, is monotone non-decreasing in the area, and resolves areas
exactly at a tier edge to the lower tier. -/
theorem c6_bitrate_tiers :
    (∀ w h, bitrate_for_dim w h = bitrate_of_area (w * h)) ∧
    (∀ a b, a ≤ b → bitrate_of_area a ≤ bitrate_of_area b) ∧
    bitrate_for_dim 480 270 = 200000 ∧
    bitrate_for_dim 960 540 = 1000000 ∧
    bitrate_for_dim 1640 922 = 3000000 ∧
    bitrate_for_dim 1920 1080 = 6000000 := by
  refine ⟨fun w h => rfl, ?_, by decide, by decide, by decide, by decide⟩
  intro a b hab
  unfold bitrate_of_area
  split_ifs <;> omega

/-- Claim C7: evaluation of get_image_info at the decisive inputs.  The
two-byte truncated JPEG (a bare SOI marker) makes the function raise a
NameError past the call boundary (w is read before assignment; only
struct.error and ValueError are caught), and a three-byte truncated JPEG
raises a TypeError (ord of an empty read), refuting the
never-throws half of the claim; minimal well-formed GIF, PNG and JPEG
headers parse to exactly their encoded dimensions and format tags, and a
non-image byte string yields the unknown result. -/
theorem c7_image_info_eval :
    get_image_info [0xFF, 0xD8] = .error .nameError ∧
    get_image_info [0xFF, 0xD8, 0x00] = .error .typeError ∧
    get_image_info [71, 73, 70, 56, 57, 97, 3, 0, 2, 0] = .ok ("image/gif", 3, 2) ∧
    get_image_info ([137, 80, 78, 71, 13, 10, 26, 10] ++ [0, 0, 0, 13] ++
      [73, 72, 68, 82] ++ [0, 0, 0, 4, 0, 0, 0, 3]) = .ok ("image/png", 4, 3) ∧
    get_image_info [0xFF, 0xD8, 0xFF, 0xC0, 0x00, 0x11, 0x08, 0x00, 0x07, 0x00, 0x05] =
      .ok ("image/jpeg", 5, 7) ∧
    get_image_info [1, 2, 3] = .ok ("", -1, -1) :=
  ⟨rfl, rfl, rfl, rfl, rfl, rfl⟩

/-- Claim C8: with the gateway-address environment override set (to a
non-empty string), the pipeline entry point only opens the signaling
tunnel against that address and returns, managing no local media
process; without the override, on a host that is not a Pi, it returns
silently having started nothing. -/
theorem c8_pipeline_entry (env : PipelineEnv) :
    (janus_env_truthy env = true →
      video_pipeline env = [.start_janus_ws_tunnel (janus_server env)]) ∧
    (janus_env_truthy env = false → env.pi_ver = none →
      video_pipeline env = []) := by
  constructor
  · intro h
    simp [video_pipeline, h]
  · intro h hv
    simp [video_pipeline, h, hv]

/-- Claim C8, witness: an explicit simulator environment and an explicit
non-Pi environment. -/
theorem c8_pipeline_entry_witness :
    video_pipeline ⟨some "10.0.0.1", none, "auto", .fail, false⟩ =
      [.start_janus_ws_tunnel "10.0.0.1"] ∧
    video_pipeline ⟨none, none, "auto", .fail, false⟩ = [] :=
  ⟨(c8_pipeline_entry _).1 rfl, (c8_pipeline_entry _).2 rfl rfl⟩

/-- Claim C9, counterexample: when every pulled frame shows a gap of one
second (always at least 100ms, i.e. a stale frame), the snapshot handler
is still pulling after 1000 queue pulls — the loop only terminates on
the third fresh observation, so it does not re-pull at most 3 times and
is not bounded. -/
theorem c9_snapshot_counterexample :
    get_snapshot (fun _ => 1) 1000 = none :=
  snapshot_loop_stale (fun _ => 1) (fun _ => by norm_num) 1000 3 0

/-- Claim C9, amended: the snapshot handler never returns a frame whose
observed gap is 100ms or more — any returned pull index saw a gap below
1/10 second; but the number of pulls before returning is unbounded: it
returns only once three pulls have observed fresh gaps, and if no pull
ever observes a gap below 1/10 second it never returns. -/
theorem c9_snapshot_freshness (gaps : ℕ → ℚ) :
    (∀ fuel i, get_snapshot gaps fuel = some i → gaps i < 1/10) ∧
    ((∀ j, ¬ (gaps j < 1/10)) → ∀ fuel, get_snapshot gaps fuel = none) := by
  constructor
  · intro fuel i h
    exact snapshot_loop_fresh gaps fuel 3 0 i h
  · intro h fuel
    exact snapshot_loop_stale gaps h fuel 3 0

/-- Claim C9, witness: with every gap fresh (zero), the handler returns
the third pull, whose gap is below 1/10; with every gap stale (one), it
has not returned after 7 pulls. -/
theorem c9_snapshot_freshness_witness :
    ((fun (_ : ℕ) => (0:ℚ)) 2 < 1/10) ∧
    get_snapshot (fun _ => (1:ℚ)) 7 = none := by
  have hrun : get_snapshot (fun _ => (0:ℚ)) 10 = some 2 := by
    norm_num [get_snapshot, get_snapshot_loop]
  exact ⟨(c9_snapshot_freshness (fun _ => (0:ℚ))).1 10 2 hrun,
    (c9_snapshot_freshness (fun _ => (1:ℚ))).2 (fun _ => by norm_num) 7⟩

/-- Claim C10: the bitrate depends on its two arguments only through
their product — it is symmetric, and any two dimension pairs of equal
pixel area give the same bitrate. -/
theorem c10_bitrate_area_only :
    (∀ w h, bitrate_for_dim w h = bitrate_for_dim h w) ∧
    (∀ w1 h1 w2 h2, w1 * h1 = w2 * h2 →
      bitrate_for_dim w1 h1 = bitrate_for_dim w2 h2) := by
  constructor
  · intro w h
    unfold bitrate_for_dim
    rw [Nat.mul_comm]
  · intro w1 h1 w2 h2 hdim
    unfold bitrate_for_dim
    rw [hdim]

end TSD
